import Mathlib

/-!
Shallow embedding of zaphar/wasm-web-components, centered on
src/macros/src/lib.rs (the web_component / template_element attribute
code generators) and src/wasm-web-component/src/lib.rs (the capability
traits the generated code wires up).

Host objects (JsValue, HtmlElement, the custom-element registry, the
document body) are modelled as plain data; host calls that the code
assumes succeed (window(), document(), body()) are modelled as
succeeding, since host-unavailability is out of scope for the claims
treated here.
-/

namespace WasmWebComponents

/-- A JavaScript value as it crosses the wasm boundary in the lifecycle
callbacks: either a string or null (the only shapes the attribute
callbacks receive). -/
abbrev JsValue := Option String

/-- An opaque host element identity. -/
abbrev Elem := Nat

/-- A host DOM event type name. -/
abbrev DomEvent := String

/-! ## Attribute-argument resolution (src/macros/src/lib.rs, get_class_and_element_names) -/

/-- The optional name-value arguments accepted by the web_component
attribute, as parsed in the loop of get_class_and_element_names
(src/macros/src/lib.rs lines 48-77): each recognised key either carries a
string literal or is absent. -/
structure WebComponentArgs where
  class_name : Option String
  element_name : Option String
  observed_attrs : Option String
  observed_events : Option String
  base_class : Option String
deriving Repr, DecidableEq

/-- The resolved configuration record (struct AttributeConfig in
src/macros/src/lib.rs lines 36-42); each field holds the contents of the
resolved string literal. -/
structure AttributeConfig where
  class_name : String
  element_name : String
  observed_attributes : String
  observed_events : String
  base_class : String
deriving Repr, DecidableEq

/-- Rendering of a proc-macro string Literal token as a string, as done
by the source's class_name.to_string() at line 86: the rendering of a
string literal token includes its surrounding double quotes. -/
def literalToken (s : String) : String := "\"" ++ s ++ "\""

/-- Character class the inflector crate treats as a word separator:
anything that is not alphanumeric. -/
def isSepChar (c : Char) : Bool := !c.isAlphanum

/-- Drop trailing separator characters, as the inflector crate does
before its case conversion loop. -/
def trimTrailingSeps (cs : List Char) : List Char :=
  (cs.reverse.dropWhile isSepChar).reverse

/-- Core loop of the inflector crate's kebab-case conversion (external
dependency of src/macros/src/lib.rs line 86, Inflector::to_kebab_case):
walks the characters carrying the previous character and a flag saying
whether we are at the start of a word run; separators collapse into a
single dash between word runs, and an uppercase character adjacent to a
lowercase neighbour starts a new dash-separated word. -/
def kebabGo : Option Char → Bool → List Char → List Char
  | _, _, [] => []
  | prev, first, c :: rest =>
    if isSepChar c then
      (if first then [] else ['-']) ++ kebabGo (some c) true rest
    else if !first && c.isUpper &&
        (((rest.head?.map Char.isLower).getD false) ||
          ((prev.map Char.isLower).getD false)) then
      '-' :: c.toLower :: kebabGo (some c) false rest
    else
      c.toLower :: kebabGo (some c) false rest

/-- Inflector::to_kebab_case modelled from the external inflector crate:
lower-cases, inserts dashes at word boundaries, and never emits leading,
trailing or doubled dashes. Behaviour on the inputs used here is pinned
by the repository's own tests (AnotherElement resolves to the element
name another-element). -/
def to_kebab_case (s : String) : String :=
  String.mk (kebabGo none true (trimTrailingSeps s.data))

/-- Rust str::to_lowercase restricted to the ASCII names appearing here. -/
def toLowerString (s : String) : String := String.mk (s.data.map Char.toLower)

/-- get_class_and_element_names (src/macros/src/lib.rs lines 44-105):
resolve class_name (override or the struct's own name), element_name
(override, else the kebab-cased, lower-cased form of the rendered
class-name literal), base_class (override or HTMLElement), and the two
observed lists (override or the empty JS array literal). No validation
of any kind is performed on the resolved names. -/
def get_class_and_element_names (args : WebComponentArgs) (struct_name : String) :
    AttributeConfig :=
  let class_name := args.class_name.getD struct_name
  let element_name :=
    match args.element_name with
    | some n => n
    | none => toLowerString (to_kebab_case (literalToken class_name))
  let base_class := args.base_class.getD "HTMLElement"
  let observed_attributes := args.observed_attrs.getD "[]"
  let observed_events := args.observed_events.getD "[]"
  ⟨class_name, element_name, observed_attributes, observed_events, base_class⟩

/-- Quick sanity example: the derivation used by the repository's own
test_component_no_class_name. -/
example :
    (get_class_and_element_names ⟨none, none, none, none, none⟩ "AnotherElement").element_name
      = "another-element" := by decide

/-! ## Generated shim and expansion output
(src/macros/src/lib.rs, expand_wc_struct_trait_shim and
expand_web_component_struct) -/

/-- Structural content of the generated JavaScript shim class source
(the format string in expand_wc_struct_trait_shim, lines 167-221): its
class name, the base class it extends, the verbatim bodies returned by
the static observedAttributes accessor and the observedEvents method,
and the element name under which customElements.define is called at the
end of the generated source. -/
structure ShimClass where
  name : String
  base_class : String
  observedAttributesBody : String
  observedEventsBody : String
  registered_element_name : String
deriving Repr, DecidableEq

/-- The static observedAttributes accessor of the generated shim: the
generated source returns the observed-attributes text verbatim. -/
def ShimClass.observedAttributes (s : ShimClass) : String :=
  s.observedAttributesBody

/-- The observedEvents method of the generated shim: the generated
source returns the observed-events text verbatim. -/
def ShimClass.observedEvents (s : ShimClass) : String :=
  s.observedEventsBody

/-- The shim-source construction inside define (the format! call of
expand_wc_struct_trait_shim): every field is spliced verbatim from the
resolved configuration; Self::class_name() and Self::element_name() are
the resolved class_name and element_name literals installed by
expand_component_def. -/
def expand_shim_source (cfg : AttributeConfig) : ShimClass :=
  ⟨cfg.class_name, cfg.base_class, cfg.observed_attributes,
    cfg.observed_events, cfg.element_name⟩

/-- Output of the whole attribute expansion for one component type
(expand_web_component_struct, lines 323-350): the resolved configuration
together with the shim content that define will install. The expansion
is total: it never fails on any argument list. -/
structure GeneratedComponent where
  config : AttributeConfig
  shim : ShimClass
deriving Repr, DecidableEq

/-- expand_web_component_struct composed with argument resolution, as
the web_component attribute entry point does (lines 390-400): resolve
names, then emit the component definition and shim. -/
def expand_web_component_struct (args : WebComponentArgs) (struct_name : String) :
    GeneratedComponent :=
  let cfg := get_class_and_element_names args struct_name
  ⟨cfg, expand_shim_source cfg⟩

/-- Whether a string contains the custom-element separator character.
Used only to state the spec's claimed validity rule; the generator in
the source performs no such test. -/
def hasSeparator (s : String) : Bool := s.data.any (fun c => c = '-')

/-- Modelled from the spec: the generation step as section 4.2 describes
it, with the validity check the source does not have: after resolving
names, reject the configuration with an InvalidConfiguration failure
when the resolved element_name lacks a separator character. This
definition exists only to be compared with the source's
get_class_and_element_names, which returns the configuration
unconditionally. -/
def get_class_and_element_names_spec (args : WebComponentArgs)
    (struct_name : String) : Except String AttributeConfig :=
  let cfg := get_class_and_element_names args struct_name
  if hasSeparator cfg.element_name then Except.ok cfg
  else Except.error "InvalidConfiguration"

/-! ## Host registry and define (src/macros/src/lib.rs, the define method
generated by expand_wc_struct_trait_shim, lines 159-237) -/

/-- The host's custom-element registry: the set of element names already
registered, as observed through registry.get(name).is_truthy(). -/
structure CustomElementRegistry where
  entries : List String
deriving Repr, DecidableEq

/-- The WebComponentHandle returned by a successful define
(src/wasm-web-component/src/lib.rs lines 265-268): a reference to the
host-side constructor function, identified here by the class name the
generated source declared and registered. -/
structure WebComponentHandle where
  element_constructor : String
deriving Repr, DecidableEq

/-- The generated define method (lines 159-237): look the element name
up in the host registry; if the lookup is truthy, return the
already-defined error without touching the registry; otherwise build the
shim source, register the class under the element name, and return a
handle to the registered constructor. Host JS calls are modelled as
succeeding. -/
def define (cfg : AttributeConfig) (reg : CustomElementRegistry) :
    Except String WebComponentHandle × CustomElementRegistry :=
  if reg.entries.contains cfg.element_name then
    (Except.error "Custom Element has already been defined", reg)
  else
    (Except.ok ⟨(expand_shim_source cfg).name⟩,
      ⟨cfg.element_name :: reg.entries⟩)

/-! ## define_once and the per-type registration guard
(std::sync::Once generated at expand_web_component_struct lines 337-339,
consumed by define_once at lines 151-156) -/

/-- Runtime state of one component type: the per-type Once guard, the
shared host registry, and an instrumentation counter recording how many
times define has been invoked (one registration attempt each). -/
structure ComponentState where
  once_complete : Bool
  registry : CustomElementRegistry
  define_count : Nat
deriving Repr, DecidableEq

/-- The generated define_once (lines 151-156): ONCE.call_once with a
closure that runs Self::define() and discards its result. If the guard
is already set the call returns at once without running the closure;
otherwise the closure runs exactly once and the guard is set. The
closure itself never touches the guard, so same-thread call patterns are
sequences of these steps. -/
def define_once (cfg : AttributeConfig) (s : ComponentState) : ComponentState :=
  if s.once_complete then s
  else
    let r := define cfg s.registry
    ⟨true, r.2, s.define_count + 1⟩

/-- N successive calls of define_once against the same state. -/
def define_once_iter (cfg : AttributeConfig) (s : ComponentState) :
    Nat → ComponentState
  | 0 => s
  | n + 1 => define_once cfg (define_once_iter cfg s n)

/-! ## Lifecycle dispatcher (src/macros/src/lib.rs, expand_wasm_shim,
lines 242-314, over the WebComponentBinding trait of
src/wasm-web-component/src/lib.rs lines 166-245) -/

/-- The two handler forms each hook offers. -/
inductive Phase where
  | readonly
  | mutating
deriving Repr, DecidableEq

/-- The six lifecycle hooks routed by the generated dispatcher. -/
inductive Hook where
  | hInit
  | hConnected
  | hDisconnected
  | hAdopted
  | hAttributeChanged
  | hHandleEvent
deriving Repr, DecidableEq

/-- A WebComponentBinding implementation over component state σ,
emitting observations of type ω (its visible effects on the host
document). The read-only forms take the state by shared reference and so
return only observations; the mutating forms additionally return the
updated state. Every handler not overridden by the user is the trait's
default no-op. -/
structure Binding (σ ω : Type) where
  init : σ → Elem → List ω
  init_mut : σ → Elem → σ × List ω
  connected : σ → Elem → List ω
  connected_mut : σ → Elem → σ × List ω
  disconnected : σ → Elem → List ω
  disconnected_mut : σ → Elem → σ × List ω
  adopted : σ → Elem → List ω
  adopted_mut : σ → Elem → σ × List ω
  attribute_changed : σ → Elem → JsValue → JsValue → JsValue → List ω
  attribute_changed_mut : σ → Elem → JsValue → JsValue → JsValue → σ × List ω
  handle_event : σ → Elem → DomEvent → List ω
  handle_event_mut : σ → Elem → DomEvent → σ × List ω

/-- init_impl (lines 265-270): self.init(element) then
self.init_mut(element), same element both times. -/
def init_impl {σ ω : Type} (b : Binding σ ω) (s : σ) (element : Elem) :
    σ × List ω :=
  let obs1 := b.init s element
  let p := b.init_mut s element
  (p.1, obs1 ++ p.2)

/-- connected_impl (lines 272-277): read-only connected, then
connected_mut, same element. -/
def connected_impl {σ ω : Type} (b : Binding σ ω) (s : σ) (element : Elem) :
    σ × List ω :=
  let obs1 := b.connected s element
  let p := b.connected_mut s element
  (p.1, obs1 ++ p.2)

/-- disconnected_impl (lines 279-284). -/
def disconnected_impl {σ ω : Type} (b : Binding σ ω) (s : σ) (element : Elem) :
    σ × List ω :=
  let obs1 := b.disconnected s element
  let p := b.disconnected_mut s element
  (p.1, obs1 ++ p.2)

/-- adopted_impl (lines 286-291). -/
def adopted_impl {σ ω : Type} (b : Binding σ ω) (s : σ) (element : Elem) :
    σ × List ω :=
  let obs1 := b.adopted s element
  let p := b.adopted_mut s element
  (p.1, obs1 ++ p.2)

/-- attribute_changed_impl (lines 294-305): the read-only form receives
name.clone(), old_value.clone(), new_value.clone(); the mutating form
then receives the original values. Cloning a JsValue copies it, so both
forms observe the same three values. -/
def attribute_changed_impl {σ ω : Type} (b : Binding σ ω) (s : σ)
    (element : Elem) (name old_value new_value : JsValue) : σ × List ω :=
  let name_clone := name
  let old_clone := old_value
  let new_clone := new_value
  let obs1 := b.attribute_changed s element name_clone old_clone new_clone
  let p := b.attribute_changed_mut s element name old_value new_value
  (p.1, obs1 ++ p.2)

/-- handle_component_event_impl (lines 307-311): read-only handle_event,
then handle_event_mut, same element and event. -/
def handle_component_event_impl {σ ω : Type} (b : Binding σ ω) (s : σ)
    (element : Elem) (event : DomEvent) : σ × List ω :=
  let obs1 := b.handle_event s element event
  let p := b.handle_event_mut s element event
  (p.1, obs1 ++ p.2)

/-- One recorded handler invocation: which hook, which form, and the
exact arguments the handler received. -/
structure TraceEvent where
  hook : Hook
  phase : Phase
  element : Elem
  name : JsValue
  old_value : JsValue
  new_value : JsValue
  event : Option DomEvent
deriving Repr, DecidableEq

/-- An observer binding whose every handler records its own invocation
with the arguments it received; used to exhibit the dispatcher's
invocation order. -/
def traceBinding : Binding Unit TraceEvent :=
  ⟨fun _ el => [⟨Hook.hInit, Phase.readonly, el, none, none, none, none⟩],
    fun _ el => ((), [⟨Hook.hInit, Phase.mutating, el, none, none, none, none⟩]),
    fun _ el => [⟨Hook.hConnected, Phase.readonly, el, none, none, none, none⟩],
    fun _ el => ((), [⟨Hook.hConnected, Phase.mutating, el, none, none, none, none⟩]),
    fun _ el => [⟨Hook.hDisconnected, Phase.readonly, el, none, none, none, none⟩],
    fun _ el => ((), [⟨Hook.hDisconnected, Phase.mutating, el, none, none, none, none⟩]),
    fun _ el => [⟨Hook.hAdopted, Phase.readonly, el, none, none, none, none⟩],
    fun _ el => ((), [⟨Hook.hAdopted, Phase.mutating, el, none, none, none, none⟩]),
    fun _ el n o v => [⟨Hook.hAttributeChanged, Phase.readonly, el, n, o, v, none⟩],
    fun _ el n o v => ((), [⟨Hook.hAttributeChanged, Phase.mutating, el, n, o, v, none⟩]),
    fun _ el e => [⟨Hook.hHandleEvent, Phase.readonly, el, none, none, none, some e⟩],
    fun _ el e => ((), [⟨Hook.hHandleEvent, Phase.mutating, el, none, none, none, some e⟩])⟩

/-! ## Default construction (WebComponentDef::new,
src/wasm-web-component/src/lib.rs lines 137-140; the generated
constructor of expand_wasm_shim lines 247-250; the factory closure bound
by define at lines 222-227) -/

/-- The Default implementation a component type derives (the expansion
adds derive(Default) to the user struct at line 341). -/
structure DefaultImpl (σ : Type) where
  default : σ

/-- The WebComponentDef trait's provided new (lines 137-140 of
src/wasm-web-component/src/lib.rs): Self::default(). -/
def WebComponentDef.new {σ : Type} (d : DefaultImpl σ) : σ := d.default

/-- The generated wasm constructor (expand_wasm_shim lines 247-250):
pub fn new() -> Self is Self::default(). -/
def generated_new {σ : Type} (d : DefaultImpl σ) : σ := d.default

/-- The factory closure define wraps into the shim constructor (lines
223-226): each call evaluates Self::new() and returns the object. -/
def define_factory {σ : Type} (d : DefaultImpl σ) : Unit → σ :=
  fun _ => generated_new d

/-! ## Template singleton (src/macros/src/lib.rs,
expand_template_struct, lines 352-387) -/

/-- An HtmlTemplateElement produced by the user-supplied render: its
optional id attribute and opaque content. -/
structure TemplateFrag where
  id : Option String
  content : String
deriving Repr, DecidableEq

/-- Runtime state of one template type: the per-type
OnceLock (Option String) cell generated at line 362, the children so far
appended to the document body, and an instrumentation counter for
invocations of render. -/
structure TemplateState where
  cell : Option (Option String)
  body_children : List TemplateFrag
  render_count : Nat
deriving Repr, DecidableEq

/-- The generated template define_once (lines 367-378):
ONCE.get_or_init with a closure that calls Self::render(), reads the
fragment's id attribute, appends the fragment to the document body and
yields the id into the cell; then return ONCE.get(). When the cell is
already filled the closure does not run and the cached value is
returned. -/
def template_define_once (render : TemplateFrag) (s : TemplateState) :
    Option (Option String) × TemplateState :=
  match s.cell with
  | some v => (some v, s)
  | none =>
    let template_element := render
    let id := template_element.id
    let s1 : TemplateState :=
      ⟨some id, s.body_children ++ [template_element], s.render_count + 1⟩
    (s1.cell, s1)

/-- The generated get_id (lines 380-383): return ONCE.get(), reading the
cell and nothing else. Stated in state-passing form so that its frame
conditions are expressible. -/
def template_get_id (s : TemplateState) :
    Option (Option String) × TemplateState :=
  (s.cell, s)

/-- N successive calls of template define_once against the same state. -/
def template_define_iter (render : TemplateFrag) (s : TemplateState) :
    Nat → TemplateState
  | 0 => s
  | n + 1 => (template_define_once render (template_define_iter render s n)).2

/-- A concrete configuration, the one the repository's test_component
uses, for witness instantiations. -/
def myElementCfg : AttributeConfig :=
  ⟨"MyElement", "my-element", "['class']", "[]", "HTMLElement"⟩

/-! ## Theorems -/

/-- C1: from a fresh state (guard unset), any number N = n+1 >= 1 of
same-thread define_once calls collapses to the first call alone: the
first caller invokes define exactly once (define_count = 1) discarding
its result, the guard is set, and every later call is the identity on
the state (no further define invocation). Reentrancy cannot arise in
this program because the closure passed to the guard, define itself,
never calls define_once, so every same-thread call pattern is a sequence
of these steps. -/
theorem define_once_exactly_one_attempt (cfg : AttributeConfig)
    (reg : CustomElementRegistry) (n : Nat) :
    define_once_iter cfg ⟨false, reg, 0⟩ (n + 1)
      = define_once cfg ⟨false, reg, 0⟩
    ∧ (define_once cfg ⟨false, reg, 0⟩).define_count = 1
    ∧ (define_once cfg ⟨false, reg, 0⟩).once_complete = true
    ∧ (∀ (r : CustomElementRegistry) (c : Nat),
        define_once cfg ⟨true, r, c⟩ = ⟨true, r, c⟩) := by
  refine ⟨?_, rfl, rfl, fun r c => rfl⟩
  induction n with
  | zero => rfl
  | succ k ih =>
    show define_once cfg (define_once_iter cfg ⟨false, reg, 0⟩ (k + 1)) = _
    rw [ih]
    rfl

/-- C2: for each of the six lifecycle hooks, the generated dispatcher
method of expand_wasm_shim invokes the read-only handler form first and
the mutating form second, both with identical arguments; the final state
is the one produced by the mutating form on the same pre-call state, the
observations of the read-only form precede those of the mutating form,
and (shown on the recording binding) both phases are always present,
exactly once each, with the attribute-change arguments (name, old, new)
observed identically by both forms. -/
theorem dispatch_two_phase_order :
    (∀ (σ ω : Type) (b : Binding σ ω) (s : σ) (el : Elem),
      init_impl b s el = ((b.init_mut s el).1, b.init s el ++ (b.init_mut s el).2))
    ∧ (∀ (σ ω : Type) (b : Binding σ ω) (s : σ) (el : Elem),
      connected_impl b s el
        = ((b.connected_mut s el).1, b.connected s el ++ (b.connected_mut s el).2))
    ∧ (∀ (σ ω : Type) (b : Binding σ ω) (s : σ) (el : Elem),
      disconnected_impl b s el
        = ((b.disconnected_mut s el).1,
            b.disconnected s el ++ (b.disconnected_mut s el).2))
    ∧ (∀ (σ ω : Type) (b : Binding σ ω) (s : σ) (el : Elem),
      adopted_impl b s el
        = ((b.adopted_mut s el).1, b.adopted s el ++ (b.adopted_mut s el).2))
    ∧ (∀ (σ ω : Type) (b : Binding σ ω) (s : σ) (el : Elem)
        (nm ov nv : JsValue),
      attribute_changed_impl b s el nm ov nv
        = ((b.attribute_changed_mut s el nm ov nv).1,
            b.attribute_changed s el nm ov nv
              ++ (b.attribute_changed_mut s el nm ov nv).2))
    ∧ (∀ (σ ω : Type) (b : Binding σ ω) (s : σ) (el : Elem) (ev : DomEvent),
      handle_component_event_impl b s el ev
        = ((b.handle_event_mut s el ev).1,
            b.handle_event s el ev ++ (b.handle_event_mut s el ev).2))
    ∧ (∀ el : Elem, (init_impl traceBinding () el).2
        = [⟨Hook.hInit, Phase.readonly, el, none, none, none, none⟩,
           ⟨Hook.hInit, Phase.mutating, el, none, none, none, none⟩])
    ∧ (∀ el : Elem, (connected_impl traceBinding () el).2
        = [⟨Hook.hConnected, Phase.readonly, el, none, none, none, none⟩,
           ⟨Hook.hConnected, Phase.mutating, el, none, none, none, none⟩])
    ∧ (∀ el : Elem, (disconnected_impl traceBinding () el).2
        = [⟨Hook.hDisconnected, Phase.readonly, el, none, none, none, none⟩,
           ⟨Hook.hDisconnected, Phase.mutating, el, none, none, none, none⟩])
    ∧ (∀ el : Elem, (adopted_impl traceBinding () el).2
        = [⟨Hook.hAdopted, Phase.readonly, el, none, none, none, none⟩,
           ⟨Hook.hAdopted, Phase.mutating, el, none, none, none, none⟩])
    ∧ (∀ (el : Elem) (nm ov nv : JsValue),
        (attribute_changed_impl traceBinding () el nm ov nv).2
          = [⟨Hook.hAttributeChanged, Phase.readonly, el, nm, ov, nv, none⟩,
             ⟨Hook.hAttributeChanged, Phase.mutating, el, nm, ov, nv, none⟩])
    ∧ (∀ (el : Elem) (ev : DomEvent),
        (handle_component_event_impl traceBinding () el ev).2
          = [⟨Hook.hHandleEvent, Phase.readonly, el, none, none, none, some ev⟩,
             ⟨Hook.hHandleEvent, Phase.mutating, el, none, none, none, some ev⟩]) :=
  ⟨fun _ _ _ _ _ => rfl, fun _ _ _ _ _ => rfl, fun _ _ _ _ _ => rfl,
    fun _ _ _ _ _ => rfl, fun _ _ _ _ _ _ _ _ => rfl, fun _ _ _ _ _ _ => rfl,
    fun _ => rfl, fun _ => rfl, fun _ => rfl, fun _ => rfl,
    fun _ _ _ _ => rfl, fun _ _ => rfl⟩

/-- C3: when the element name is not yet in the host registry, define
succeeds, returns the constructor handle for the declared class, and
registers the name; a second define for the same name returns the
already-defined error and leaves the registry unchanged, so the name
ends up registered exactly once. -/
theorem define_once_per_element_name (cfg : AttributeConfig)
    (reg : CustomElementRegistry) (h : cfg.element_name ∉ reg.entries) :
    (define cfg reg).1 = Except.ok ⟨cfg.class_name⟩
    ∧ (define cfg reg).2.entries = cfg.element_name :: reg.entries
    ∧ (define cfg (define cfg reg).2).1
        = Except.error "Custom Element has already been defined"
    ∧ (define cfg (define cfg reg).2).2 = (define cfg reg).2
    ∧ (define cfg reg).2.entries.count cfg.element_name = 1 := by
  have hmem : cfg.element_name ∈ cfg.element_name :: reg.entries :=
    List.mem_cons_self _ _
  refine ⟨?_, ?_, ?_, ?_, ?_⟩
  · simp [define, h, expand_shim_source]
  · simp [define, h]
  · simp [define, h, hmem]
  · simp [define, h, hmem]
  · simp [define, h, List.count_cons_self, List.count_eq_zero.mpr h]

/-- Witness for C3 at the repository's own test configuration: the
my-element name is absent from the empty registry, and the conclusions
hold there. -/
theorem define_once_per_element_name_witness :
    myElementCfg.element_name ∉ (⟨[]⟩ : CustomElementRegistry).entries
    ∧ ((define myElementCfg ⟨[]⟩).1 = Except.ok ⟨myElementCfg.class_name⟩
      ∧ (define myElementCfg ⟨[]⟩).2.entries
          = myElementCfg.element_name :: (⟨[]⟩ : CustomElementRegistry).entries
      ∧ (define myElementCfg (define myElementCfg ⟨[]⟩).2).1
          = Except.error "Custom Element has already been defined"
      ∧ (define myElementCfg (define myElementCfg ⟨[]⟩).2).2
          = (define myElementCfg ⟨[]⟩).2
      ∧ (define myElementCfg ⟨[]⟩).2.entries.count myElementCfg.element_name
          = 1) :=
  ⟨by decide, define_once_per_element_name myElementCfg ⟨[]⟩ (by decide)⟩

/-- C4 counterexample: with the override element_name = badname the
resolved element name has no separator character, the spec-described
checker rejects it as an InvalidConfiguration, yet the source's
generation succeeds and produces a shim whose registration call targets
badname — generation never fails on an invalid element name. -/
theorem generation_skips_validation_counterexample :
    hasSeparator
        (get_class_and_element_names
          ⟨none, some "badname", none, none, none⟩ "Foo").element_name = false
    ∧ get_class_and_element_names_spec
        ⟨none, some "badname", none, none, none⟩ "Foo"
        = Except.error "InvalidConfiguration"
    ∧ (expand_web_component_struct
        ⟨none, some "badname", none, none, none⟩ "Foo").shim.registered_element_name
        = "badname" := by
  refine ⟨by decide, ?_, rfl⟩
  have hsep : hasSeparator
      (get_class_and_element_names
        ⟨none, some "badname", none, none, none⟩ "Foo").element_name = false := by
    decide
  simp [get_class_and_element_names_spec, hsep]

/-- C4 amended: generation performs no element-name validation at all:
for every argument list and struct name it is total, its resolved
configuration is passed through unchanged, and the resolved element_name
— separator or not — is used verbatim as the name of the shim's
registration call; rejection of an invalid name can only come later from
the host registry at define time. -/
theorem generation_total_no_validation (args : WebComponentArgs)
    (struct_name : String) :
    (expand_web_component_struct args struct_name).config
      = get_class_and_element_names args struct_name
    ∧ (expand_web_component_struct args struct_name).shim.registered_element_name
      = (get_class_and_element_names args struct_name).element_name
    ∧ (expand_web_component_struct args struct_name).shim.name
      = (get_class_and_element_names args struct_name).class_name :=
  ⟨rfl, rfl, rfl⟩

/-- C5: with no class_name override the resolved class_name is the
struct's own name whatever the other arguments are; the struct
AnotherElement with no overrides resolves to class_name AnotherElement
and element_name another-element; and with only the element_name
override this-old-element the class_name is still the struct's own name
while the element_name is exactly the override. -/
theorem name_resolution_defaults :
    (∀ (struct_name : String) (attrs evts base : Option String),
      (get_class_and_element_names
        ⟨none, none, attrs, evts, base⟩ struct_name).class_name = struct_name)
    ∧ (get_class_and_element_names
        ⟨none, none, none, none, none⟩ "AnotherElement").class_name
        = "AnotherElement"
    ∧ (get_class_and_element_names
        ⟨none, none, none, none, none⟩ "AnotherElement").element_name
        = "another-element"
    ∧ (∀ (struct_name : String) (attrs evts base : Option String),
      (get_class_and_element_names
        ⟨none, some "this-old-element", attrs, evts, base⟩ struct_name).class_name
          = struct_name
      ∧ (get_class_and_element_names
        ⟨none, some "this-old-element", attrs, evts, base⟩ struct_name).element_name
          = "this-old-element") :=
  ⟨fun _ _ _ _ => rfl, rfl, by decide, fun _ _ _ _ => ⟨rfl, rfl⟩⟩

/-- C6: with neither observed_attrs nor observed_events overridden both
resolve to the empty JS array literal (the empty set), whatever the
other arguments are; and for every resolved configuration the generated
shim's static observedAttributes accessor and its observedEvents method
return the resolved texts verbatim. -/
theorem observed_sets_default_empty_and_verbatim :
    (∀ (struct_name : String) (cls el base : Option String),
      (get_class_and_element_names
        ⟨cls, el, none, none, base⟩ struct_name).observed_attributes = "[]"
      ∧ (get_class_and_element_names
        ⟨cls, el, none, none, base⟩ struct_name).observed_events = "[]")
    ∧ (∀ cfg : AttributeConfig,
      (expand_shim_source cfg).observedAttributes = cfg.observed_attributes
      ∧ (expand_shim_source cfg).observedEvents = cfg.observed_events) :=
  ⟨fun _ _ _ _ => ⟨rfl, rfl⟩, fun _ => ⟨rfl, rfl⟩⟩

/-- C7: on the fresh singleton state the first define_once call runs
render exactly once (render_count 1), appends the rendered fragment to
the document body exactly once, caches the fragment's optional id and
returns it; any later call finds the cell filled and is a no-op that
returns the identical cached value, so for every N = n+1 >= 1 calls the
state is exactly the one the first call produced. -/
theorem template_define_once_renders_once (render : TemplateFrag) (n : Nat) :
    (template_define_once render ⟨none, [], 0⟩).1 = some render.id
    ∧ (template_define_once render ⟨none, [], 0⟩).2
        = ⟨some render.id, [render], 1⟩
    ∧ template_define_iter render ⟨none, [], 0⟩ (n + 1)
        = ⟨some render.id, [render], 1⟩
    ∧ (template_define_once render
        (template_define_iter render ⟨none, [], 0⟩ (n + 1))).1 = some render.id
    ∧ (∀ (v : Option String) (bc : List TemplateFrag) (rc : Nat),
        template_define_once render ⟨some v, bc, rc⟩ = (some v, ⟨some v, bc, rc⟩)) := by
  have hiter : ∀ m : Nat,
      template_define_iter render ⟨none, [], 0⟩ (m + 1)
        = ⟨some render.id, [render], 1⟩ := by
    intro m
    induction m with
    | zero => rfl
    | succ k ih =>
      show (template_define_once render
        (template_define_iter render ⟨none, [], 0⟩ (k + 1))).2 = _
      rw [ih]
      rfl
  refine ⟨rfl, rfl, hiter n, ?_, fun _ _ _ => rfl⟩
  rw [hiter n]
  rfl

/-- C8: get_id returns none on the fresh state (never defined),
some none after a define_once whose rendered template had no id
attribute, and some (some i) after a define_once whose template carried
the id i; and the three results are pairwise distinct, so the caller can
tell the three situations apart. -/
theorem template_get_id_three_states :
    (template_get_id ⟨none, [], 0⟩).1 = none
    ∧ (∀ content : String,
        (template_get_id
          (template_define_once ⟨none, content⟩ ⟨none, [], 0⟩).2).1 = some none)
    ∧ (∀ i content : String,
        (template_get_id
          (template_define_once ⟨some i, content⟩ ⟨none, [], 0⟩).2).1
          = some (some i))
    ∧ ((none : Option (Option String)) ≠ some none)
    ∧ (∀ i : String, (some none : Option (Option String)) ≠ some (some i))
    ∧ (∀ i : String, (none : Option (Option String)) ≠ some (some i)) :=
  ⟨rfl, fun _ => rfl, fun _ _ => rfl,
    fun h => Option.noConfusion h,
    fun _ h => Option.noConfusion (Option.some.inj h),
    fun _ h => Option.noConfusion h⟩

/-- C9: the generated wasm constructor, the WebComponentDef trait's
provided new, and the factory closure define binds into the shim all
produce exactly the type's default value, so every host-constructed
instance starts in the default state. -/
theorem instance_construction_is_default (σ : Type) (d : DefaultImpl σ) :
    generated_new d = d.default
    ∧ WebComponentDef.new d = d.default
    ∧ define_factory d () = d.default :=
  ⟨rfl, rfl, rfl⟩

/-- C10: get_id is a pure read of the once-cell: it leaves the state
(hence the render count and the document body) unchanged, a define_once
run after a get_id behaves exactly as without it, and get_id after
get_id returns the same value — calling it any number of times, before
or after define_once, never renders, never inserts, and never affects
any later call. -/
theorem template_get_id_is_pure_read (s : TemplateState) (render : TemplateFrag) :
    (template_get_id s).2 = s
    ∧ (template_get_id s).2.render_count = s.render_count
    ∧ (template_get_id s).2.body_children = s.body_children
    ∧ template_define_once render (template_get_id s).2
        = template_define_once render s
    ∧ template_get_id (template_get_id s).2 = template_get_id s :=
  ⟨rfl, rfl, rfl, rfl, rfl⟩

end WasmWebComponents
